import Mathlib

/-!
Verification development for the browser-based live video annotator
(src/script.js).  The relevant parts of the program are shallowly embedded:

* the renderer (drawBoundingBox, the draw phase of runDetectionFrame) as pure
  functions over rational pixel coordinates;
* the global mutable state of the script (currentStream, currentFacingMode,
  modelsLoaded, isDetecting, rafId, ...) as an explicit AppState record, with
  the stateful operations (stopDetectionLoop, stopCurrentStream, setupCamera,
  startDetectionLoop, the visibilitychange listener, the camera part of the
  startup routine) as state transformers;
* the temporal structure of one detection cycle (the sequential awaits in
  runDetectionFrame) as explicit event-time functions parameterised by the
  latency of each awaited call;
* the loadModels routine as a two-caller interleaved transition system, to
  settle the claim about concurrent callers.

Camera acquisition and the two perception providers are external
collaborators; they enter the embedding as oracle parameters.
-/

/-! ## Renderer data model (drawBoundingBox, src/script.js lines 159-225)

Numbers are rationals: the script computes with JavaScript numbers but every
property claimed of it (linearity and exactness of scaling) is about the ideal
arithmetic, which the rationals carry exactly. -/

/-- Box of a face detection as the face provider returns it:
xMin, yMin, width, height, xMax, yMax in source-frame pixels. -/
structure FaceBox where
  xMin : ℚ
  yMin : ℚ
  width : ℚ
  height : ℚ
  xMax : ℚ
  yMax : ℚ
  deriving DecidableEq

/-- A prediction as drawBoundingBox receives it: the script probes for the
COCO-SSD shape (class, score, bbox array) and for the face shape (box record
with an xMin field); absent fields are modelled with Option.  A field that is
none stands for a missing (undefined) JavaScript property. -/
structure Prediction where
  cls : Option String
  score : Option ℚ
  bbox : Option (List ℚ)
  box : Option FaceBox
  deriving DecidableEq

/-- Drawing style constant DRAW_BOX_COLOR_FACE of the script (line 27). -/
def DRAW_BOX_COLOR_FACE : String := "#00FF00"

/-- Drawing style constant DRAW_BOX_COLOR_PERSON of the script (line 28). -/
def DRAW_BOX_COLOR_PERSON : String := "#FF00FF"

/-- Drawing style constant DRAW_LINE_WIDTH of the script (line 31). -/
def DRAW_LINE_WIDTH : ℚ := 3

/-- The toFixed(0) rounding of JavaScript: the integer nearest to q, and of two
equally near integers the larger one (ECMAScript Number.prototype.toFixed). -/
def jsToFixed0 (q : ℚ) : ℤ := (q + 1 / 2).floor

/-- Score text of drawBoundingBox (line 166): the JavaScript conditional
`prediction.score ? (prediction.score * 100).toFixed(0) + percent : empty`;
a missing score and a zero score are both falsy and give the empty string. -/
def scoreTextOf (score : Option ℚ) : String :=
  match score with
  | some s => if s = 0 then "" else toString (jsToFixed0 (s * 100)) ++ "%"
  | none => ""

/-- The box and label data drawBoundingBox extracts from a prediction before
drawing: position, size, label text and score text. -/
structure BoxInfo where
  x : ℚ
  y : ℚ
  width : ℚ
  height : ℚ
  labelText : String
  scoreText : String
  deriving DecidableEq

/-- First branch of drawBoundingBox (lines 163-166): a prediction with a truthy
class (a non-empty string), a bbox array of length exactly 4.  The bbox is
read as x, y, width, height; the label is the class name. -/
def cocoInfo (p : Prediction) : Option BoxInfo :=
  match p.cls, p.bbox with
  | some c, some [bx, b2, bw, bh] =>
      if c = "" then none
      else some ⟨bx, b2, bw, bh, c, scoreTextOf p.score⟩
  | _, _ => none

/-- Second branch of drawBoundingBox (lines 167-172): a prediction with a box
record carrying xMin; the label is the fixed text face and there is no score
text. -/
def faceInfo (p : Prediction) : Option BoxInfo :=
  match p.box with
  | some fb => some ⟨fb.xMin, fb.yMin, fb.width, fb.height, "face", ""⟩
  | none => none

/-- The branch cascade of drawBoundingBox: COCO-SSD shape first, face shape
second, otherwise no drawable box (lines 163-176). -/
def predInfo (p : Prediction) : Option BoxInfo :=
  (cocoInfo p).orElse fun _ => faceInfo p

/-- Resolution context of a draw: canvas pixel size (target) and intrinsic
video size (source), read by drawBoundingBox from canvasElement and
videoElement (lines 187-188). -/
structure RenderCtx where
  canvasWidth : ℚ
  canvasHeight : ℚ
  videoWidth : ℚ
  videoHeight : ℚ
  deriving DecidableEq

/-- What one successful drawBoundingBox call paints: the scaled outline
rectangle, its colour, the trimmed label text, and where the label (with its
background rectangle in the box colour) is placed. -/
structure DrawCmd where
  rectX : ℚ
  rectY : ℚ
  rectW : ℚ
  rectH : ℚ
  color : String
  label : String
  labelX : ℚ
  labelY : ℚ
  deriving DecidableEq

/-- drawBoundingBox (lines 159-225).  Returns none exactly when the script
returns without drawing: unknown prediction shape (line 175) or a box with
non-positive width or height (lines 181-184).  Otherwise it scales the box by
canvas/video per axis (lines 187-192) and paints outline plus label; the label
height estimate is parseInt of the 16px font times 1.2 (line 205). -/
def drawBoundingBox (ctx : RenderCtx) (p : Prediction) (color : String)
    (labelPre : String) : Option DrawCmd :=
  match predInfo p with
  | none => none
  | some i =>
    if i.width ≤ 0 ∨ i.height ≤ 0 then none
    else
      let scaleX := ctx.canvasWidth / ctx.videoWidth
      let scaleY := ctx.canvasHeight / ctx.videoHeight
      let scaledX := i.x * scaleX
      let scaledY := i.y * scaleY
      let textHeight : ℚ := 16 * (12 / 10)
      some
        { rectX := scaledX
          rectY := scaledY
          rectW := i.width * scaleX
          rectH := i.height * scaleY
          color := color
          label := (labelPre ++ i.labelText ++ " " ++ i.scoreText).trim
          labelX := scaledX + DRAW_LINE_WIDTH / 2
          labelY := max (scaledY - textHeight - 2) textHeight }

/-- A detection the renderer actually paints: it has a recognised box shape and
strictly positive width and height. -/
def isValidDetection (p : Prediction) : Bool :=
  match predInfo p with
  | some i => decide (0 < i.width) && decide (0 < i.height)
  | none => false

/-- One observable action of the draw phase of runDetectionFrame: clearing the
canvas, or painting one bounding box with its label. -/
inductive RenderEvent where
  | clear : RenderEvent
  | draw : DrawCmd → RenderEvent
  deriving DecidableEq

/-- The object branch of the draw phase (lines 264-272): an object prediction
is drawn, in magenta, only when its class is exactly the string person. -/
def drawPersonEvent (ctx : RenderCtx) (p : Prediction) : Option RenderEvent :=
  if p.cls = some "person" then
    (drawBoundingBox ctx p DRAW_BOX_COLOR_PERSON "").map RenderEvent.draw
  else none

/-- The face branch of the draw phase (lines 275-277): every face prediction is
passed to drawBoundingBox with the green face colour. -/
def drawFaceEvent (ctx : RenderCtx) (p : Prediction) : Option RenderEvent :=
  (drawBoundingBox ctx p DRAW_BOX_COLOR_FACE "").map RenderEvent.draw

/-- The draw phase of runDetectionFrame (lines 259-277): clear the whole
canvas, then draw the object predictions (person class only), then the face
predictions. -/
def renderResults (ctx : RenderCtx) (objects faces : List Prediction) :
    List RenderEvent :=
  RenderEvent.clear ::
    (objects.filterMap (drawPersonEvent ctx) ++ faces.filterMap (drawFaceEvent ctx))

/-! ## Temporal structure of one detection cycle (runDetectionFrame, lines
244-291)

runDetectionFrame awaits the face provider, then awaits the object provider,
then draws, then (still detecting) schedules the next invocation through
requestAnimationFrame.  Each awaited call and the draw step get a symbolic
duration; the event-time functions below thread a clock through the body of
the function in source order, so an await that starts only after another
completes starts at the completion time of that other. -/

/-- Durations, in abstract time units, of the three suspending steps of one
cycle: the face-provider call, the object-provider call, and the draw step. -/
structure CycleLatencies where
  faceLat : ℕ
  cocoLat : ℕ
  renderDur : ℕ
  deriving DecidableEq

/-- Time the face-provider call of a cycle starting at t0 is issued: it is the
first awaited statement of the try block (line 248). -/
def faceCallStart (t0 : ℕ) (_l : CycleLatencies) : ℕ := t0

/-- Time the face-provider call resolves. -/
def faceCallEnd (t0 : ℕ) (l : CycleLatencies) : ℕ := t0 + l.faceLat

/-- Time the object-provider call is issued: the detect call (line 253) is
reached only once the await of the face call has resolved. -/
def cocoCallStart (t0 : ℕ) (l : CycleLatencies) : ℕ := t0 + l.faceLat

/-- Time the object-provider call resolves. -/
def cocoCallEnd (t0 : ℕ) (l : CycleLatencies) : ℕ := t0 + l.faceLat + l.cocoLat

/-- Time the draw phase (lines 259-277) starts: after both awaits resolved. -/
def renderStepStart (t0 : ℕ) (l : CycleLatencies) : ℕ := t0 + l.faceLat + l.cocoLat

/-- Time the draw phase completes. -/
def renderStepEnd (t0 : ℕ) (l : CycleLatencies) : ℕ :=
  t0 + l.faceLat + l.cocoLat + l.renderDur

/-- Time the next cycle is handed to requestAnimationFrame (line 289): the last
statement of runDetectionFrame, after the awaits and the draw phase. -/
def scheduleNextAt (t0 : ℕ) (l : CycleLatencies) : ℕ := renderStepEnd t0 l

/-- Start time of the n-th cycle of the loop: cycle 0 starts at time 0, and
cycle n+1 starts when the animation-frame callback scheduled at the end of
cycle n fires, a further rafDelay n after it was scheduled. -/
def cycleStartTime (lats : ℕ → CycleLatencies) (rafDelay : ℕ → ℕ) : ℕ → ℕ
  | 0 => 0
  | n + 1 => scheduleNextAt (cycleStartTime lats rafDelay n) (lats n) + rafDelay n

/-! ## loadModels as a two-caller interleaving (lines 125-157)

loadModels is guarded by the boolean modelsLoaded alone: a caller first reads
the flag (line 126) and returns if it is set; otherwise it starts the parallel
load of the two providers (lines 136-143) and only after that load resolves
sets the flag (line 148).  Two callers are modelled, each with a program
counter; a schedule says which caller advances next.  Reading the flag and
starting the load are taken as one atomic step, which only under-approximates
the interleavings the real code admits (there are further suspension points
between the check and the load). -/

/-- Program counter of one loadModels caller: before the flag check, awaiting
the provider load, or returned. -/
inductive LoaderPhase where
  | start : LoaderPhase
  | loading : LoaderPhase
  | finished : LoaderPhase
  deriving DecidableEq

/-- Shared state of the loadModels protocol plus the two program counters.
loadSequences counts how many times the underlying load of both providers
(the Promise.all of lines 136-143) has been started. -/
structure LoadModelsState where
  modelsLoaded : Bool
  loadSequences : ℕ
  pcA : LoaderPhase
  pcB : LoaderPhase
  deriving DecidableEq

/-- Both callers about to enter loadModels, nothing loaded yet. -/
def initLoadState : LoadModelsState :=
  { modelsLoaded := false, loadSequences := 0
    pcA := LoaderPhase.start, pcB := LoaderPhase.start }

/-- One step of one caller of loadModels: at start, the caller reads
modelsLoaded and either returns at once (line 126-129) or begins the
underlying load; at loading, the awaited load resolves and the caller sets
modelsLoaded (line 148) and returns. -/
def stepCaller (pc : LoaderPhase) (s : LoadModelsState) :
    LoaderPhase × LoadModelsState :=
  match pc with
  | LoaderPhase.start =>
      if s.modelsLoaded then (LoaderPhase.finished, s)
      else (LoaderPhase.loading, { s with loadSequences := s.loadSequences + 1 })
  | LoaderPhase.loading => (LoaderPhase.finished, { s with modelsLoaded := true })
  | LoaderPhase.finished => (LoaderPhase.finished, s)

/-- Advance caller B (who = true) or caller A (who = false) by one step. -/
def loadStep (who : Bool) (s : LoadModelsState) : LoadModelsState :=
  if who then
    let r := stepCaller s.pcB s
    { r.2 with pcB := r.1 }
  else
    let r := stepCaller s.pcA s
    { r.2 with pcA := r.1 }

/-- Run a schedule of caller steps from a state. -/
def runLoad (sched : List Bool) (s : LoadModelsState) : LoadModelsState :=
  sched.foldl (fun st w => loadStep w st) s

/-! ## Global script state and the camera / loop operations

The mutable globals of the script (lines 9-15) become the fields of AppState.
Media streams are identified by the order of their creation: the n-th
successful getUserMedia call yields stream id n; a set of stopped stream ids
stands for the stop() calls on the tracks of those streams.  Camera
acquisition itself is an external collaborator and is passed in as an oracle
from facing mode to success or a DOMException name. -/

/-- A facing mode: front (user) or rear (environment) camera. -/
inductive FacingMode where
  | user : FacingMode
  | environment : FacingMode
  deriving DecidableEq

/-- The opposite facing mode, as computed at lines 342 and 392. -/
def oppositeMode : FacingMode → FacingMode
  | FacingMode.user => FacingMode.environment
  | FacingMode.environment => FacingMode.user

/-- The DOMException names setupCamera distinguishes (lines 110-119):
NotAllowedError is permission denied, NotReadableError is a busy or failing
device, NotFoundError and DevicesNotFoundError a missing camera, and anything
else is collapsed into OtherError. -/
inductive CamErrorName where
  | NotAllowedError : CamErrorName
  | NotFoundError : CamErrorName
  | DevicesNotFoundError : CamErrorName
  | NotReadableError : CamErrorName
  | OtherError : CamErrorName
  deriving DecidableEq

/-- The mutable globals of the script plus the bookkeeping that makes stream
lifetimes observable: rafId, currentStream (as a stream id), currentFacingMode,
modelsLoaded, isDetecting, the srcObject and paused state of the video element,
whether the canvas was last cleared, the ids of streams whose tracks were
stopped, and the id the next acquired stream will get. -/
structure AppState where
  rafId : Option ℕ
  currentStream : Option ℕ
  currentFacingMode : FacingMode
  modelsLoaded : Bool
  isDetecting : Bool
  videoSrcObject : Option ℕ
  videoPaused : Bool
  canvasCleared : Bool
  stoppedStreams : List ℕ
  nextStreamId : ℕ
  deriving DecidableEq

/-- The state at page load (lines 9-15): no stream, user facing mode, no models,
not detecting, blank canvas. -/
def appInit : AppState :=
  { rafId := none, currentStream := none, currentFacingMode := FacingMode.user
    modelsLoaded := false, isDetecting := false, videoSrcObject := none
    videoPaused := true, canvasCleared := true, stoppedStreams := []
    nextStreamId := 0 }

/-- stopDetectionLoop (lines 42-53): cancel the pending animation frame, clear
the detecting flag, clear the canvas. -/
def stopDetectionLoop (s : AppState) : AppState :=
  { s with rafId := none, isDetecting := false, canvasCleared := true }

/-- stopCurrentStream (lines 55-65): stop the detection loop, stop every track
of the current stream if there is one, detach the video source, clear the
stream handle. -/
def stopCurrentStream (s : AppState) : AppState :=
  let s1 := stopDetectionLoop s
  let stopped :=
    match s1.currentStream with
    | some i => i :: s1.stoppedStreams
    | none => s1.stoppedStreams
  { s1 with stoppedStreams := stopped, videoSrcObject := none, currentStream := none }

/-- setupCamera (lines 67-123): stop any existing stream first, then ask the
camera collaborator for a stream with the requested facing mode.  On success
the new stream becomes current, is attached to the video element, and only
then is currentFacingMode updated (line 84); the new stream is not yet playing.
On failure the error is rethrown to the caller and the state keeps the
facing mode it had. -/
def setupCamera (fm : FacingMode) (oracle : FacingMode → Except CamErrorName Unit)
    (s : AppState) : AppState × Except CamErrorName ℕ :=
  let s1 := stopCurrentStream s
  match oracle fm with
  | Except.error e => (s1, Except.error e)
  | Except.ok _ =>
      let sid := s1.nextStreamId
      ({ s1 with currentStream := some sid, videoSrcObject := some sid
                 currentFacingMode := fm, nextStreamId := sid + 1
                 videoPaused := true },
       Except.ok sid)

/-- startDetectionLoop (lines 293-307): a no-op when already detecting or when
models, stream or video playback are not ready; otherwise set isDetecting and
run the first frame at once. -/
def startDetectionLoop (s : AppState) : AppState :=
  if s.isDetecting then s
  else if s.modelsLoaded = false ∨ s.currentStream = none ∨ s.videoPaused then s
  else { s with isDetecting := true }

/-- The visibilitychange listener (lines 419-433): ignore the event unless
models are loaded and a stream exists; when the page hides, stop the loop if it
runs; when the page shows, restart the loop if it is not running and the video
element has readyState at least 3. -/
def visibilityChange (hidden : Bool) (readyState : ℕ) (s : AppState) : AppState :=
  if s.modelsLoaded = false ∨ s.currentStream = none then s
  else if hidden then
    if s.isDetecting then stopDetectionLoop s else s
  else
    if s.isDetecting = false ∧ 3 ≤ readyState then startDetectionLoop s else s

/-- The camera phase of initialize (lines 335-354): try the requested facing
mode; if that throws with a name other than NotAllowedError and other than
NotReadableError, try the opposite facing mode once, and if this fallback also
throws, surface the original error.  The third component lists the facing
modes attempted, in order. -/
def initCameraPhase (requested : FacingMode)
    (oracle : FacingMode → Except CamErrorName Unit) (s : AppState) :
    AppState × Except CamErrorName ℕ × List FacingMode :=
  match setupCamera requested oracle s with
  | (s1, Except.ok sid) => (s1, Except.ok sid, [requested])
  | (s1, Except.error e) =>
      if e ≠ CamErrorName.NotAllowedError ∧ e ≠ CamErrorName.NotReadableError then
        match setupCamera (oppositeMode requested) oracle s1 with
        | (s2, Except.ok sid) =>
            (s2, Except.ok sid, [requested, oppositeMode requested])
        | (s2, Except.error _) =>
            (s2, Except.error e, [requested, oppositeMode requested])
      else (s1, Except.error e, [requested])

/-- A stream is live when it has been created and its tracks were never
stopped. -/
def streamLive (s : AppState) (sid : ℕ) : Prop :=
  sid < s.nextStreamId ∧ sid ∉ s.stoppedStreams

/-- Well-formedness of the capture state: stopped ids and the current id are
ids of created streams, and every live stream is the current one (so there is
at most one live stream, the handle the script holds). -/
def captureWF (s : AppState) : Prop :=
  (∀ i ∈ s.stoppedStreams, i < s.nextStreamId)
  ∧ (∀ i, s.currentStream = some i → i < s.nextStreamId)
  ∧ (∀ i, streamLive s i → s.currentStream = some i)

/-! ## Helper lemmas -/

/-- drawBoundingBox produces a command exactly for the detections
isValidDetection accepts: recognised shape, strictly positive width and
height. -/
theorem drawBoundingBox_isSome (ctx : RenderCtx) (p : Prediction)
    (color lp : String) :
    (drawBoundingBox ctx p color lp).isSome = isValidDetection p := by
  unfold drawBoundingBox isValidDetection
  cases h : predInfo p with
  | none => rfl
  | some i =>
      by_cases hw : i.width ≤ 0 ∨ i.height ≤ 0
      · rcases hw with hw | hw
        · simp [hw, not_lt.mpr hw]
        · simp [hw, not_lt.mpr hw]
      · push_neg at hw
        simp [not_le.mpr hw.1, not_le.mpr hw.2, hw.1, hw.2]

/-- Filtering by the guard that says whether f fires commutes with filterMap,
and the image has exactly one element per accepted input. -/
theorem filterMap_eq_filter_of_isSome {α β : Type} (f : α → Option β)
    (q : α → Bool) (h : ∀ a, (f a).isSome = q a) (l : List α) :
    l.filterMap f = (l.filter q).filterMap f
    ∧ (l.filterMap f).length = (l.filter q).length := by
  induction l with
  | nil => exact ⟨rfl, rfl⟩
  | cons a t ih =>
      cases hfa : f a with
      | none =>
          have hh := h a
          rw [hfa] at hh
          simp at hh
          refine ⟨?_, ?_⟩
          · rw [List.filterMap_cons_none hfa, List.filter_cons_of_neg (by simp [hh])]
            exact ih.1
          · rw [List.filterMap_cons_none hfa, List.filter_cons_of_neg (by simp [hh])]
            exact ih.2
      | some b =>
          have hh := h a
          rw [hfa] at hh
          simp at hh
          refine ⟨?_, ?_⟩
          · rw [List.filterMap_cons_some hfa, List.filter_cons_of_pos hh,
                List.filterMap_cons_some hfa, ih.1]
          · rw [List.filterMap_cons_some hfa, List.filter_cons_of_pos hh]
            simp [ih.2]

/-- drawPersonEvent fires exactly for person-class detections the renderer
accepts. -/
theorem drawPersonEvent_isSome (ctx : RenderCtx) (p : Prediction) :
    (drawPersonEvent ctx p).isSome
      = (decide (p.cls = some "person") && isValidDetection p) := by
  unfold drawPersonEvent
  by_cases h : p.cls = some "person"
  · simp [h, drawBoundingBox_isSome]
  · simp [h]

/-- drawFaceEvent fires exactly for the detections the renderer accepts. -/
theorem drawFaceEvent_isSome (ctx : RenderCtx) (p : Prediction) :
    (drawFaceEvent ctx p).isSome = isValidDetection p := by
  unfold drawFaceEvent
  simp [drawBoundingBox_isSome]

/-! ## Claim theorems -/

/-- Claim C8: coordinate scaling in drawBoundingBox is linear and exact.  For
every prediction the renderer draws, with box (x, y, w, h) in source pixels,
source resolution (videoWidth, videoHeight) and target resolution
(canvasWidth, canvasHeight), the drawn rectangle is exactly
(x*Tw/Sw, y*Th/Sh, w*Tw/Sw, h*Th/Sh); and when target equals source (and the
source resolution is nonzero) the mapping is the identity. -/
theorem c8_scaling_linear_exact (ctx : RenderCtx) (p : Prediction)
    (color lp : String) (cmd : DrawCmd) (i : BoxInfo)
    (hinfo : predInfo p = some i)
    (hdraw : drawBoundingBox ctx p color lp = some cmd) :
    cmd.rectX = i.x * ctx.canvasWidth / ctx.videoWidth
    ∧ cmd.rectY = i.y * ctx.canvasHeight / ctx.videoHeight
    ∧ cmd.rectW = i.width * ctx.canvasWidth / ctx.videoWidth
    ∧ cmd.rectH = i.height * ctx.canvasHeight / ctx.videoHeight
    ∧ (ctx.canvasWidth = ctx.videoWidth → ctx.canvasHeight = ctx.videoHeight →
        ctx.videoWidth ≠ 0 → ctx.videoHeight ≠ 0 →
        cmd.rectX = i.x ∧ cmd.rectY = i.y
        ∧ cmd.rectW = i.width ∧ cmd.rectH = i.height) := by
  simp only [drawBoundingBox, hinfo] at hdraw
  by_cases hw : i.width ≤ 0 ∨ i.height ≤ 0
  · rw [if_pos hw] at hdraw
    exact absurd hdraw (by simp)
  · rw [if_neg hw] at hdraw
    have hc := Option.some.inj hdraw
    subst hc
    refine ⟨(mul_div_assoc _ _ _).symm, (mul_div_assoc _ _ _).symm,
      (mul_div_assoc _ _ _).symm, (mul_div_assoc _ _ _).symm, ?_⟩
    intro h1 h2 h3 h4
    rw [h1, h2, div_self h3, div_self h4]
    simp

/-- Context for the C8 witness: canvas 1280 by 720, intrinsic video 640 by
360, so both axes scale by 2. -/
def ctx8 : RenderCtx :=
  { canvasWidth := 1280, canvasHeight := 720, videoWidth := 640, videoHeight := 360 }

/-- Prediction for the C8 witness: a person object detection with bbox
(10, 20, 30, 40) and no score. -/
def pred8 : Prediction :=
  { cls := some "person", score := none, bbox := some [10, 20, 30, 40], box := none }

/-- The renderer draws pred8 in ctx8: drawBoundingBox yields a command. -/
theorem pred8_drawn :
    (drawBoundingBox ctx8 pred8 DRAW_BOX_COLOR_PERSON "").isSome = true := rfl

/-- The command drawBoundingBox produces for pred8 in ctx8. -/
def cmd8 : DrawCmd := (drawBoundingBox ctx8 pred8 DRAW_BOX_COLOR_PERSON "").get pred8_drawn

/-- Witness for C8 at a concrete input: the box (10, 20, 30, 40), scaled from
640 by 360 to 1280 by 720, lands at exactly (10*1280/640, 20*720/360,
30*1280/640, 40*720/360) = (20, 40, 60, 80). -/
theorem c8_scaling_witness :
    cmd8.rectX = 10 * (1280 : ℚ) / 640 ∧ cmd8.rectW = 30 * (1280 : ℚ) / 640
    ∧ cmd8.rectX = 20 ∧ cmd8.rectW = 60 := by
  have h := c8_scaling_linear_exact ctx8 pred8 DRAW_BOX_COLOR_PERSON "" cmd8
      ⟨10, 20, 30, 40, "person", ""⟩ (by decide)
      (Option.some_get pred8_drawn).symm
  refine ⟨h.1, h.2.2.1, ?_, ?_⟩
  · rw [h.1]; norm_num [ctx8]
  · rw [h.2.2.1]; norm_num [ctx8]

/-- Claim C9: a detection whose box has non-positive width or height is a
silent no-op for the renderer, and over a list mixing invalid and valid
detections exactly the valid ones are drawn: the drawn commands are those of
the valid sublist, one command per valid detection. -/
theorem c9_invalid_boxes_skipped (ctx : RenderCtx) (color lp : String)
    (ps : List Prediction) :
    (∀ p i, predInfo p = some i → i.width ≤ 0 ∨ i.height ≤ 0 →
        drawBoundingBox ctx p color lp = none)
    ∧ ps.filterMap (fun p => drawBoundingBox ctx p color lp)
        = (ps.filter isValidDetection).filterMap
            (fun p => drawBoundingBox ctx p color lp)
    ∧ (ps.filterMap (fun p => drawBoundingBox ctx p color lp)).length
        = (ps.filter isValidDetection).length
    ∧ ∀ p ∈ ps.filter isValidDetection,
        (drawBoundingBox ctx p color lp).isSome = true := by
  have key : ∀ p, (drawBoundingBox ctx p color lp).isSome = isValidDetection p :=
    fun p => drawBoundingBox_isSome ctx p color lp
  have lf := filterMap_eq_filter_of_isSome _ _ key ps
  refine ⟨?_, lf.1, lf.2, ?_⟩
  · intro p i hi hw
    simp only [drawBoundingBox, hi]
    rw [if_pos hw]
  · intro p hp
    rw [key p]
    exact (List.mem_filter.mp hp).2

/-- Identity render context for the C1 counterexample: canvas size equals
intrinsic video size, 640 by 480. -/
def ctxId : RenderCtx :=
  { canvasWidth := 640, canvasHeight := 480, videoWidth := 640, videoHeight := 480 }

/-- A well-formed object detection whose class is car: recognised COCO-SSD
shape and a strictly positive box. -/
def carPred : Prediction :=
  { cls := some "car", score := none, bbox := some [10, 10, 50, 50], box := none }

/-- Claim C1 counterexample: a valid object detection whose class is car is
not drawn at all; the draw phase paints only the canvas clear.  This refutes
the claim that every object detection with a valid box is drawn, not merely a
subset. -/
theorem c1_person_filter_counterexample :
    isValidDetection carPred = true
    ∧ renderResults ctxId [carPred] [] = [RenderEvent.clear] :=
  ⟨by decide, by decide⟩

/-- Claim C1 as amended: in one draw phase the renderer first clears the
previous drawing and then draws an outline and a label for each object
detection whose class is person and whose box is valid and for each face
detection with a valid box, one draw per such detection; object detections of
any other class are skipped without drawing. -/
theorem c1_render_clears_then_draws (ctx : RenderCtx)
    (objects faces : List Prediction) :
    (renderResults ctx objects faces).head? = some RenderEvent.clear
    ∧ (renderResults ctx objects faces).length
        = 1 + ((objects.filter fun p =>
              decide (p.cls = some "person") && isValidDetection p).length
            + (faces.filter isValidDetection).length)
    ∧ (∀ p, ¬ p.cls = some "person" → drawPersonEvent ctx p = none) := by
  refine ⟨rfl, ?_, ?_⟩
  · have ho := filterMap_eq_filter_of_isSome (drawPersonEvent ctx)
        (fun p => decide (p.cls = some "person") && isValidDetection p)
        (fun p => drawPersonEvent_isSome ctx p) objects
    have hf := filterMap_eq_filter_of_isSome (drawFaceEvent ctx)
        isValidDetection (fun p => drawFaceEvent_isSome ctx p) faces
    simp [renderResults, ho.2, hf.2]
    omega
  · intro p h
    unfold drawPersonEvent
    simp [h]

/-- Claim C2 counterexample: with a face-provider latency of 5 time units, the
object-provider call is issued at time 5, which is not before the face call
resolves at time 5 — the object call waits for the face call to complete, so
the two provider calls of one cycle are not concurrent. -/
theorem c2_concurrency_counterexample :
    faceCallEnd 0 ⟨5, 7, 2⟩ ≤ cocoCallStart 0 ⟨5, 7, 2⟩
    ∧ faceCallStart 0 ⟨5, 7, 2⟩ = 0
    ∧ faceCallEnd 0 ⟨5, 7, 2⟩ = 5
    ∧ cocoCallStart 0 ⟨5, 7, 2⟩ = 5 := by
  refine ⟨le_refl 5, rfl, rfl, rfl⟩

/-- Claim C2 as amended: within one detection cycle the face-detection
provider is invoked and awaited first; only once it resolves is the
object-detection provider invoked and awaited; and both results are in hand
before the render step starts. -/
theorem c2_sequential_calls_amended (t0 : ℕ) (l : CycleLatencies) :
    cocoCallStart t0 l = faceCallEnd t0 l
    ∧ renderStepStart t0 l = cocoCallEnd t0 l
    ∧ faceCallEnd t0 l ≤ renderStepStart t0 l
    ∧ cocoCallEnd t0 l ≤ renderStepStart t0 l := by
  refine ⟨rfl, rfl, ?_, le_refl _⟩
  unfold faceCallEnd renderStepStart
  omega

/-- Claim C3: detection cycles never overlap.  Cycle n+1 is scheduled only at
the end of cycle n, after both inference results were awaited and the render
step completed, so its first inference call starts no earlier than the end of
the render step of cycle n. -/
theorem c3_cycles_never_overlap (lats : ℕ → CycleLatencies)
    (rafDelay : ℕ → ℕ) (n : ℕ) :
    cycleStartTime lats rafDelay (n + 1)
      = scheduleNextAt (cycleStartTime lats rafDelay n) (lats n) + rafDelay n
    ∧ renderStepEnd (cycleStartTime lats rafDelay n) (lats n)
        ≤ faceCallStart (cycleStartTime lats rafDelay (n + 1)) (lats (n + 1))
    ∧ cocoCallEnd (cycleStartTime lats rafDelay n) (lats n)
        ≤ cycleStartTime lats rafDelay (n + 1) := by
  refine ⟨rfl, ?_, ?_⟩
  · simp only [faceCallStart, cycleStartTime, scheduleNextAt, renderStepEnd]
    omega
  · simp only [cocoCallEnd, cycleStartTime, scheduleNextAt, renderStepEnd]
    omega

/-- Claim C4 counterexample: two callers that both enter loadModels while
nothing is loaded each start their own underlying load sequence, because the
guard flag is only set after a load resolves.  The schedule lets caller A and
caller B each pass the flag check before either load completes: two load
sequences start, refuting that concurrent callers trigger exactly one. -/
theorem c4_concurrent_double_load_counterexample :
    (runLoad [false, true, false, true] initLoadState).loadSequences = 2
    ∧ (runLoad [false, true, false, true] initLoadState).modelsLoaded = true := by
  exact ⟨rfl, rfl⟩

/-- Claim C4 as amended: once a load has succeeded (modelsLoaded is set),
every subsequent call of loadModels returns at once without starting another
load, whichever caller makes it; but two callers that invoke loadModels
concurrently while a load is still in flight each trigger their own
underlying load sequence, since the idempotency flag is set only on
completion. -/
theorem c4_load_once_after_success_amended (s : LoadModelsState)
    (h : s.modelsLoaded = true) :
    loadStep false s = { s with pcA := LoaderPhase.finished }
    ∧ loadStep true s = { s with pcB := LoaderPhase.finished }
    ∧ (runLoad [false, true] initLoadState).loadSequences = 2 := by
  obtain ⟨m, seq, pa, pb⟩ := s
  simp only at h
  subst h
  refine ⟨?_, ?_, rfl⟩
  · cases pa <;> rfl
  · cases pb <;> rfl

/-- Witness for C4 at a concrete input: in a state where the models finished
loading once (one load sequence recorded), a further caller returns without
starting a second load sequence. -/
theorem c4_load_once_witness :
    loadStep false
        { modelsLoaded := true, loadSequences := 1
          pcA := LoaderPhase.start, pcB := LoaderPhase.start }
      = { modelsLoaded := true, loadSequences := 1
          pcA := LoaderPhase.finished, pcB := LoaderPhase.start } := by
  have h := c4_load_once_after_success_amended
      { modelsLoaded := true, loadSequences := 1
        pcA := LoaderPhase.start, pcB := LoaderPhase.start } rfl
  exact h.1

/-- Claim C5: the camera fallback policy of the startup routine.  When the
first acquisition fails with permission denied (NotAllowedError) or a busy
device (NotReadableError), no fallback is attempted and that error is
surfaced; when it fails with any other error kind, the opposite facing mode
is attempted exactly once more, and if the fallback fails too, the original
error is the one surfaced. -/
theorem c5_camera_fallback_policy (s : AppState) (req : FacingMode)
    (oracle : FacingMode → Except CamErrorName Unit) (e : CamErrorName)
    (h : oracle req = Except.error e) :
    ((e = CamErrorName.NotAllowedError ∨ e = CamErrorName.NotReadableError) →
        (initCameraPhase req oracle s).2.2 = [req]
        ∧ (initCameraPhase req oracle s).2.1 = Except.error e)
    ∧ (e ≠ CamErrorName.NotAllowedError → e ≠ CamErrorName.NotReadableError →
        (initCameraPhase req oracle s).2.2 = [req, oppositeMode req]
        ∧ ∀ e2, oracle (oppositeMode req) = Except.error e2 →
            (initCameraPhase req oracle s).2.1 = Except.error e) := by
  have hsc : setupCamera req oracle s = (stopCurrentStream s, Except.error e) := by
    unfold setupCamera
    rw [h]
  constructor
  · intro hcase
    have hcond : ¬ (e ≠ CamErrorName.NotAllowedError ∧ e ≠ CamErrorName.NotReadableError) := by
      rcases hcase with hc | hc <;> simp [hc]
    simp [initCameraPhase, hsc, hcond]
  · intro h1 h2
    constructor
    · rcases hsp : setupCamera (oppositeMode req) oracle (stopCurrentStream s)
          with ⟨s2, r2⟩
      cases r2 with
      | error e2 => simp [initCameraPhase, hsc, hsp, h1, h2]
      | ok u => simp [initCameraPhase, hsc, hsp, h1, h2]
    · intro e2 he2
      have hsc2 : setupCamera (oppositeMode req) oracle (stopCurrentStream s)
          = (stopCurrentStream (stopCurrentStream s), Except.error e2) := by
        unfold setupCamera
        rw [he2]
      simp [initCameraPhase, hsc, hsc2, h1, h2]

/-- Camera oracle for the C5 witness: the user camera fails with
NotFoundError, the environment camera fails with some other error. -/
def c5oracle : FacingMode → Except CamErrorName Unit
  | FacingMode.user => Except.error CamErrorName.NotFoundError
  | FacingMode.environment => Except.error CamErrorName.OtherError

/-- Witness for C5 at a concrete input: a NotFoundError on the user camera
leads to exactly one fallback attempt on the environment camera, and when
that also fails the original NotFoundError is surfaced. -/
theorem c5_camera_fallback_witness :
    (initCameraPhase FacingMode.user c5oracle appInit).2.2
        = [FacingMode.user, FacingMode.environment]
    ∧ (initCameraPhase FacingMode.user c5oracle appInit).2.1
        = Except.error CamErrorName.NotFoundError := by
  have h := c5_camera_fallback_policy appInit FacingMode.user c5oracle
      CamErrorName.NotFoundError rfl
  have h2 := h.2 (by decide) (by decide)
  exact ⟨h2.1, h2.2 CamErrorName.OtherError rfl⟩

/-- Field equations of stopCurrentStream: the stream handle is cleared, the
id counter is untouched, and the tracks of the stream that was current are
recorded as stopped. -/
theorem stopCurrentStream_fields (s : AppState) :
    (stopCurrentStream s).nextStreamId = s.nextStreamId
    ∧ (stopCurrentStream s).currentStream = none
    ∧ (stopCurrentStream s).stoppedStreams
        = (match s.currentStream with
           | some i => i :: s.stoppedStreams
           | none => s.stoppedStreams) := by
  unfold stopCurrentStream stopDetectionLoop
  exact ⟨rfl, rfl, rfl⟩

/-- Well-formedness of the capture state survives stopCurrentStream; in
particular no stream is live afterwards. -/
theorem captureWF_stop (s : AppState) (h : captureWF s) :
    captureWF (stopCurrentStream s) := by
  obtain ⟨h1, h2, h3⟩ := h
  obtain ⟨f1, f2, f3⟩ := stopCurrentStream_fields s
  refine ⟨?_, ?_, ?_⟩
  · intro i hi
    rw [f3] at hi
    rw [f1]
    cases hc : s.currentStream with
    | none =>
        rw [hc] at hi
        exact h1 i hi
    | some c =>
        rw [hc] at hi
        rcases List.mem_cons.mp hi with rfl | hi2
        · exact h2 i hc
        · exact h1 i hi2
  · intro i hi
    rw [f2] at hi
    exact Option.noConfusion hi
  · intro i hlive
    exfalso
    obtain ⟨hlt, hmem⟩ := hlive
    rw [f1] at hlt
    rw [f3] at hmem
    cases hc : s.currentStream with
    | none =>
        rw [hc] at hmem
        have := h3 i ⟨hlt, hmem⟩
        rw [hc] at this
        exact Option.noConfusion this
    | some c =>
        rw [hc] at hmem
        have hmem2 : i ∉ s.stoppedStreams := fun hin => hmem (List.mem_cons_of_mem c hin)
        have := h3 i ⟨hlt, hmem2⟩
        rw [hc] at this
        have hic : i = c := (Option.some.inj this).symm
        exact hmem (hic ▸ List.mem_cons_self i s.stoppedStreams)

/-- Well-formedness of the capture state survives setupCamera, whether the
acquisition succeeds or fails. -/
theorem captureWF_setupCamera (fm : FacingMode)
    (oracle : FacingMode → Except CamErrorName Unit) (s : AppState)
    (h : captureWF s) : captureWF (setupCamera fm oracle s).1 := by
  have hstop := captureWF_stop s h
  cases ho : oracle fm with
  | error e =>
      have hsc : (setupCamera fm oracle s).1 = stopCurrentStream s := by
        unfold setupCamera
        rw [ho]
      rw [hsc]
      exact hstop
  | ok u =>
      obtain ⟨g1, g2, g3⟩ := hstop
      have hsc : (setupCamera fm oracle s).1
          = { stopCurrentStream s with
              currentStream := some (stopCurrentStream s).nextStreamId
              videoSrcObject := some (stopCurrentStream s).nextStreamId
              currentFacingMode := fm
              nextStreamId := (stopCurrentStream s).nextStreamId + 1
              videoPaused := true } := by
        unfold setupCamera
        rw [ho]
      rw [hsc]
      refine ⟨?_, ?_, ?_⟩
      · intro i hi
        simp only at hi ⊢
        have := g1 i hi
        omega
      · intro i hi
        simp only at hi ⊢
        have : i = (stopCurrentStream s).nextStreamId := (Option.some.inj hi).symm
        omega
      · intro i hlive
        obtain ⟨hlt, hmem⟩ := hlive
        simp only at hlt hmem ⊢
        by_cases hin : i = (stopCurrentStream s).nextStreamId
        · rw [hin]
        · exfalso
          have hlt2 : i < (stopCurrentStream s).nextStreamId := by omega
          have := g3 i ⟨hlt2, hmem⟩
          rw [(stopCurrentStream_fields s).2.1] at this
          exact Option.noConfusion this

/-- The always-granting camera oracle used in the switch scenario. -/
def okOracle : FacingMode → Except CamErrorName Unit := fun _ => Except.ok ()

/-- The switch scenario of the spec: from the initial page state, acquire the
user camera, then immediately acquire the environment camera. -/
def switchScenario : AppState :=
  (setupCamera FacingMode.environment okOracle
      (setupCamera FacingMode.user okOracle appInit).1).1

/-- Claim C6: at most one live camera stream exists at any time.  Both
stopCurrentStream and setupCamera preserve the invariant that every live
stream is the held current one; and in the concrete user-then-environment
switch scenario exactly one stream is live (the second, id 1) while the
tracks of the first stream (id 0) are stopped. -/
theorem c6_single_live_stream (fm : FacingMode)
    (oracle : FacingMode → Except CamErrorName Unit) (s : AppState)
    (hwf : captureWF s) :
    captureWF (stopCurrentStream s)
    ∧ captureWF (setupCamera fm oracle s).1
    ∧ switchScenario.currentStream = some 1
    ∧ 0 ∈ switchScenario.stoppedStreams
    ∧ (∀ i, streamLive switchScenario i ↔ i = 1) := by
  refine ⟨captureWF_stop s hwf, captureWF_setupCamera fm oracle s hwf, rfl, ?_, ?_⟩
  · show 0 ∈ [0]
    exact List.mem_singleton.mpr rfl
  · intro i
    show i < 2 ∧ i ∉ [0] ↔ i = 1
    simp only [List.mem_singleton]
    omega

/-- Witness for C6 at a concrete input: the invariant holds of the freshly
stopped initial state, and the switch scenario ends holding stream 1. -/
theorem c6_single_live_stream_witness :
    captureWF (stopCurrentStream appInit)
    ∧ switchScenario.currentStream = some 1 := by
  have h := c6_single_live_stream FacingMode.user okOracle appInit
      ⟨fun i hi => absurd hi (List.not_mem_nil i),
       fun i hi => Option.noConfusion hi,
       fun i hlive => absurd hlive.1 (Nat.not_lt_zero i)⟩
  exact ⟨h.1, h.2.2.1⟩

/-- A state in which the loop is running: models loaded, stream 0 live and
attached, video playing, a frame scheduled. -/
def runningState : AppState :=
  { rafId := some 7, currentStream := some 0, currentFacingMode := FacingMode.user
    modelsLoaded := true, isDetecting := true, videoSrcObject := some 0
    videoPaused := false, canvasCleared := false, stoppedStreams := []
    nextStreamId := 1 }

/-- Claim C7 counterexample: pausing on page-visibility-hidden produces a
state equal, field for field, to the state the stop operation produces — the
script has no Paused controller state distinguished from Idle; both paths run
the same stopDetectionLoop and leave isDetecting false, rafId cleared and the
canvas cleared. -/
theorem c7_paused_equals_idle_counterexample :
    visibilityChange true 4 runningState = stopDetectionLoop runningState := by
  decide

/-- Claim C7 as amended: pausing on page-visibility-hidden performs exactly
the stop operation (cancel the pending frame, clear isDetecting, clear the
canvas), leaving a state identical to Idle-after-stop rather than a distinct
Paused state; still, when the page becomes visible again with the stream live
and the video ready (readyState at least 3), the loop returns to running
without re-acquiring the camera or reloading models: the stream handle,
facing mode, model flag and stream bookkeeping are all unchanged by the
pause-resume round trip. -/
theorem c7_pause_resume_amended (s : AppState) (rs : ℕ) (i : ℕ)
    (hm : s.modelsLoaded = true) (hc : s.currentStream = some i)
    (hd : s.isDetecting = true) (hp : s.videoPaused = false) (hr : 3 ≤ rs) :
    visibilityChange true rs s = stopDetectionLoop s
    ∧ (visibilityChange true rs s).isDetecting = false
    ∧ (visibilityChange false rs (visibilityChange true rs s)).isDetecting = true
    ∧ (visibilityChange false rs (visibilityChange true rs s)).currentStream
        = s.currentStream
    ∧ (visibilityChange false rs (visibilityChange true rs s)).modelsLoaded
        = s.modelsLoaded
    ∧ (visibilityChange false rs (visibilityChange true rs s)).nextStreamId
        = s.nextStreamId
    ∧ (visibilityChange false rs (visibilityChange true rs s)).stoppedStreams
        = s.stoppedStreams
    ∧ (visibilityChange false rs (visibilityChange true rs s)).currentFacingMode
        = s.currentFacingMode := by
  have h1 : visibilityChange true rs s = stopDetectionLoop s := by
    unfold visibilityChange
    rw [hm, hc]
    simp [hd]
  have h2 : visibilityChange false rs (stopDetectionLoop s)
      = { stopDetectionLoop s with isDetecting := true } := by
    unfold visibilityChange startDetectionLoop stopDetectionLoop
    simp [hm, hc, hp, hr]
  rw [h1, h2]
  exact ⟨rfl, rfl, rfl, rfl, rfl, rfl, rfl, rfl⟩

/-- Witness for C7 at a concrete input: from runningState, hiding the page and
showing it again (video readyState 4) leaves the loop running again with the
same stream and models. -/
theorem c7_pause_resume_witness :
    (visibilityChange false 4 (visibilityChange true 4 runningState)).isDetecting
      = true
    ∧ (visibilityChange false 4 (visibilityChange true 4 runningState)).currentStream
      = runningState.currentStream := by
  have h := c7_pause_resume_amended runningState 4 0 rfl rfl rfl rfl (by decide)
  exact ⟨h.2.2.1, h.2.2.2.1⟩

/-- Claim C10: currentFacingMode is updated only after a successful camera
acquisition.  Every failing setupCamera call leaves the stored facing mode at
its previous value (and surfaces the error), while a successful call records
the mode it acquired — so a later toggle is relative to the last successfully
acquired camera. -/
theorem c10_facing_mode_only_on_success (s : AppState) (fm : FacingMode)
    (oracle : FacingMode → Except CamErrorName Unit) (e : CamErrorName)
    (h : oracle fm = Except.error e) :
    (setupCamera fm oracle s).1.currentFacingMode = s.currentFacingMode
    ∧ (setupCamera fm oracle s).2 = Except.error e
    ∧ ∀ o2 : FacingMode → Except CamErrorName Unit, o2 fm = Except.ok () →
        (setupCamera fm o2 s).1.currentFacingMode = fm := by
  have hsc : setupCamera fm oracle s = (stopCurrentStream s, Except.error e) := by
    unfold setupCamera
    rw [h]
  refine ⟨?_, ?_, ?_⟩
  · rw [hsc]
    rfl
  · rw [hsc]
  · intro o2 ho2
    have hsc2 : (setupCamera fm o2 s).1
        = { stopCurrentStream s with
            currentStream := some (stopCurrentStream s).nextStreamId
            videoSrcObject := some (stopCurrentStream s).nextStreamId
            currentFacingMode := fm
            nextStreamId := (stopCurrentStream s).nextStreamId + 1
            videoPaused := true } := by
      unfold setupCamera
      rw [ho2]
    rw [hsc2]

/-- Witness for C10 at a concrete input: asking for the environment camera
and being refused with NotFoundError leaves the stored facing mode at its
initial value, user. -/
theorem c10_facing_mode_witness :
    (setupCamera FacingMode.environment
        (fun _ => Except.error CamErrorName.NotFoundError) appInit).1.currentFacingMode
      = FacingMode.user := by
  have h := c10_facing_mode_only_on_success appInit FacingMode.environment
      (fun _ => Except.error CamErrorName.NotFoundError) CamErrorName.NotFoundError rfl
  exact h.1
